import Mathlib

/-
Verification of the GoLinuxToolkit repository's subscription and
job-correlation machinery (packages `network`, `systemd`, `unix`).

The bus transport is modelled abstractly: a D-Bus signal is a record of
originating path, member name and a list of loosely typed body values;
the pump and the job waiter are modelled as functions over the serialized
list of events (received signals, cancellation, timer expiry) that the
corresponding Go select loops process in order.  Environment structures
(`BusEnv`, `SystemdEnv`) carry the replies the external bus would give to
the synchronous calls each operation performs.
-/

namespace GoLinuxToolkit

/-- A loosely typed D-Bus body value, as carried by `dbus.Signal.Body`
(`[]interface\x7b\x7d` in Go).  The Go code only ever type-asserts values to
`uint32`, `string` and `dbus.ObjectPath`; everything else is `other`. -/
inductive DBusValue where
  | u32 (v : Nat)
  | str (s : String)
  | objPath (p : String)
  | other
deriving DecidableEq, Repr

/-- Rendering used to model Go's `%v` formatting of a body value. -/
def DBusValue.render : DBusValue → String
  | .u32 v => toString v
  | .str s => s
  | .objPath p => p
  | .other => "other"

/-- A raw D-Bus signal (`dbus.Signal`): originating object path, member
name, and ordered body values. -/
structure DBusSignal where
  path : String
  name : String
  body : List DBusValue
deriving DecidableEq, Repr

/-- `network.NetworkManagerDeviceInterface`. -/
def NetworkManagerDeviceInterface : String := "org.freedesktop.NetworkManager.Device"

/-- `network.DeviceStateChangedSignal = NetworkManagerDeviceInterface + ".StateChanged"`. -/
def DeviceStateChangedSignal : String := NetworkManagerDeviceInterface ++ ".StateChanged"

/-- The systemd `JobRemoved` signal name used by `waitJobComplete`. -/
def dbusJobRemovedSignalName : String := "org.freedesktop.systemd1.Manager.JobRemoved"

/-- Go's `v, ok := x.(uint32)` type assertion on a body value. -/
def asU32 : DBusValue → Option Nat
  | .u32 v => some v
  | _ => none

/-- The per-signal validation and decode step of
`network.goParseDeviceStateChangeSignals`: the signal's path must equal the
subscribed device path, its name must equal `DeviceStateChangedSignal`, its
body must have at least 3 elements, and each of the first three body
elements must type-assert to `uint32`; then the decoded record is the
triple of those three values.  Any failure yields `none` (the Go loop
`continue`s, emitting nothing). -/
def parseDeviceStateChangeSignal (devPath : String) (sig : DBusSignal) : Option (Nat × Nat × Nat) :=
  if sig.path = devPath ∧ sig.name = DeviceStateChangedSignal ∧ 3 ≤ sig.body.length then
    match asU32 (sig.body.getD 0 .other), asU32 (sig.body.getD 1 .other),
        asU32 (sig.body.getD 2 .other) with
    | some a, some b, some c => some (a, b, c)
    | _, _, _ => none
  else none

/-- One event observed at the pump's `select`: either the cancellation
context fired (`ctx.Done()`), or a raw signal arrived on `sigCh`. -/
inductive PumpEvent where
  | cancelled
  | signal (s : DBusSignal)
deriving DecidableEq, Repr

/-- Observable state of one run of the pump goroutine: the records sent to
`outCh` in order, whether `conn.Close()` has run (deferred, so it runs
exactly when the goroutine returns), and whether `wg.Done()` has run
(also deferred; `Join = wg.Wait` returns exactly when it has). -/
structure PumpState where
  sent : List (Nat × Nat × Nat)
  connClosed : Bool
  done : Bool
deriving DecidableEq, Repr

/-- `network.goParseDeviceStateChangeSignals`, run over the serialized list
of events its select loop observes.  On `ctx.Done()` the goroutine returns
immediately (running the deferred `conn.Close()` and `wg.Done()`), so later
events are never processed.  On a signal it validates/decodes via
`parseDeviceStateChangeSignal` and sends the record, or silently skips.
An exhausted event list means the goroutine is still blocked in `select`:
nothing closed, not done. -/
def goParseDeviceStateChangeSignals (devPath : String) : List PumpEvent → PumpState
  | [] => ⟨[], false, false⟩
  | PumpEvent.cancelled :: _ => ⟨[], true, true⟩
  | PumpEvent.signal s :: rest =>
    match parseDeviceStateChangeSignal devPath s with
    | some r =>
      let st := goParseDeviceStateChangeSignals devPath rest
      ⟨r :: st.sent, st.connClosed, st.done⟩
    | none => goParseDeviceStateChangeSignals devPath rest

/-- One event observed at `waitJobComplete`'s `select`: the 5-second timer
fired, or a raw signal arrived on `signalCh`. -/
inductive WaitEvent where
  | timeout
  | signal (s : DBusSignal)
deriving DecidableEq, Repr

/-- Outcome of `waitJobComplete`: still blocked in the loop (`pending`,
the event list ran out), returned a job result string, or returned an
error. -/
inductive WaitOutcome where
  | pending
  | ok (result : String)
  | err (msg : String)
deriving DecidableEq, Repr

/-- `systemd.waitJobComplete`, run over the serialized list of events its
select loop observes.  Timer expiry returns the timeout error.  A signal is
examined only if its name is the `JobRemoved` signal name; a body shorter
than 4 is logged and skipped; a job path (body[1]) different from the
target job path is skipped and waiting continues; on a match, a string
result (body[3]) is returned, any other result type is an error. -/
def waitJobComplete (targetJobPath : String) : List WaitEvent → WaitOutcome
  | [] => .pending
  | WaitEvent.timeout :: _ => .err "operation timed out"
  | WaitEvent.signal sig :: rest =>
    if sig.name = dbusJobRemovedSignalName then
      if sig.body.length < 4 then
        waitJobComplete targetJobPath rest
      else if sig.body.getD 1 .other = DBusValue.objPath targetJobPath then
        match sig.body.getD 3 .other with
        | DBusValue.str r => .ok r
        | v => .err ("unexpected jobResult type, got value: " ++ v.render)
      else
        waitJobComplete targetJobPath rest
    else
      waitJobComplete targetJobPath rest

/-- The predicate under which `waitJobComplete` accepts a signal as the
completion notification for the target job path: right signal name, body of
at least 4 elements, and body[1] equal (as a `dbus.ObjectPath`) to the
target job path. -/
def jobRemovedMatches (targetJobPath : String) (sig : DBusSignal) : Prop :=
  sig.name = dbusJobRemovedSignalName ∧ 4 ≤ sig.body.length ∧
    sig.body.getD 1 .other = DBusValue.objPath targetJobPath

instance (t : String) (s : DBusSignal) : Decidable (jobRemovedMatches t s) := by
  unfold jobRemovedMatches; infer_instance

/-- The classification inside `systemd.checkServiceStatus`: a unit counts
as running unless its `ActiveState` is `"inactive"` or `"failed"`
(`!((unitState == "inactive") || (unitState == "failed"))`). -/
def serviceIsRunning (unitState : String) : Bool :=
  !((unitState == "inactive") || (unitState == "failed"))

/-- `systemd.checkServiceStatus`, given the result of the `ActiveState`
property read (`getUnitStatus`): propagates the read error, otherwise
classifies via `serviceIsRunning`. -/
def checkServiceStatus (unitState : Except String String) : Except String Bool :=
  match unitState with
  | .error e => .error e
  | .ok st => .ok (serviceIsRunning st)

/-- The bus replies that one `StartService`/`StopService` call consumes:
the `ActiveState` read at the pre-check, the reply to the mutating
`StartUnit`/`StopUnit` call (job object path or error), the serialized
events seen while waiting for job completion, and the `ActiveState` read
at the reconcile re-query. -/
structure SystemdEnv where
  precheckState : Except String String
  jobReply : Except String String
  waitEvents : List WaitEvent
  recheckState : Except String String
deriving Repr

/-- Observable outcome of `StartService`/`StopService`: the returned error
(`none` is Go's `nil`), the number of mutating `StartUnit`/`StopUnit`
calls issued, and whether the reconcile status re-query was issued. -/
structure SvcOutcome where
  err : Option String
  mutatingCalls : Nat
  reconciled : Bool
deriving DecidableEq, Repr

/-- `systemd.StartService`: pre-check via `checkServiceStatus` (success
with zero mutating calls if already running), issue `StartUnit` obtaining
the job path, wait for job completion, return success on `"done"`,
otherwise reconcile by re-querying status: success if now running, else an
error naming the job result.  `none` means the call has not returned (the
wait is still blocked, which cannot happen in a real run since the timer
always fires). -/
def StartService (env : SystemdEnv) : Option SvcOutcome :=
  match checkServiceStatus env.precheckState with
  | .error e => some ⟨some e, 0, false⟩
  | .ok res =>
    if res then some ⟨none, 0, false⟩
    else
      match env.jobReply with
      | .error e => some ⟨some ("error requesting start job for service: " ++ e), 1, false⟩
      | .ok startJobPath =>
        match waitJobComplete startJobPath env.waitEvents with
        | .pending => none
        | .err e => some ⟨some ("waiting for start job failed with error: " ++ e), 1, false⟩
        | .ok jobResult =>
          if jobResult == "done" then some ⟨none, 1, false⟩
          else
            match checkServiceStatus env.recheckState with
            | .error e =>
              some ⟨some ("job to start unit failed and checking state of service gave error: " ++ e), 1, true⟩
            | .ok res2 =>
              if !res2 then
                some ⟨some ("job to start service failed (" ++ jobResult ++ ") and unit is not running"), 1, true⟩
              else some ⟨none, 1, true⟩

/-- `systemd.StopService`: symmetric to `StartService` — success with zero
mutating calls if already stopped, issue `StopUnit`, wait, success on
`"done"`, otherwise reconcile: success if now stopped, else an error
naming the job result. -/
def StopService (env : SystemdEnv) : Option SvcOutcome :=
  match checkServiceStatus env.precheckState with
  | .error e => some ⟨some e, 0, false⟩
  | .ok res =>
    if !res then some ⟨none, 0, false⟩
    else
      match env.jobReply with
      | .error e => some ⟨some ("error requesting stop job for service: " ++ e), 1, false⟩
      | .ok stopJobPath =>
        match waitJobComplete stopJobPath env.waitEvents with
        | .pending => none
        | .err e => some ⟨some ("waiting for stop job failed with error: " ++ e), 1, false⟩
        | .ok jobResult =>
          if jobResult == "done" then some ⟨none, 1, false⟩
          else
            match checkServiceStatus env.recheckState with
            | .error e =>
              some ⟨some ("job to stop unit failed and checking state of service gave error: " ++ e), 1, true⟩
            | .ok res2 =>
              if res2 then
                some ⟨some ("job to stop service failed (" ++ jobResult ++ ") and unit is still running"), 1, true⟩
              else some ⟨none, 1, true⟩

/-- Replies of the bus to the two calls a subscribe operation performs:
connecting to the system bus, and registering the match rule.  `none`
means the call succeeded. -/
structure BusEnv where
  connectErr : Option String
  addMatchErr : Option String
deriving DecidableEq, Repr

/-- `network.deviceStateChangeSubscribe`: returns an error when the system
bus connection fails.  The source calls `conn.AddMatchSignal(matchRule)`
and DISCARDS its returned error, so a rejected match rule does not
prevent the subscription from being returned. -/
def deviceStateChangeSubscribe (env : BusEnv) (devPath : String) : Except String Unit :=
  match env.connectErr with
  | some e => .error ("failed to connect to System Bus: " ++ e)
  | none => .ok ()

/-- `network.DeviceStateChangeSubscribe`: propagates the error of
`deviceStateChangeSubscribe`, otherwise wires up the pump and returns the
subscription. -/
def DeviceStateChangeSubscribe (env : BusEnv) (devPath : String) : Except String Unit :=
  match deviceStateChangeSubscribe env devPath with
  | .error e => .error e
  | .ok u => .ok u

/-- `unix.DBusSignalSubscription`, as defined in the source: a channel of
RAW `dbus.Signal` values and the owned connection.  The source struct has
no `Stop` and no `Join` member, and nothing in `unix` or `network` decodes
the signals before they reach `C`; `C` here holds the list of raw signals
the connection delivers. -/
structure DBusSignalSubscription where
  C : List DBusSignal
  connOpen : Bool
deriving DecidableEq, Repr

/-- `unix.(*DBusSignalSubscription).MakeDBusSignalSubscription`: errors if
the system bus connection fails, errors if the `AddMatch` call is rejected
(this one, unlike `deviceStateChangeSubscribe`, checks `call.Err`), else
registers the raw signal channel. -/
def MakeDBusSignalSubscription (env : BusEnv) : Except String Unit :=
  match env.connectErr with
  | some e => .error ("failed to connect to SystemBus: " ++ e)
  | none =>
    match env.addMatchErr with
    | some e => .error e
    | none => .ok ()

/-- `network.GetNetworkManagerStateSubscription`: builds the match rule for
the NetworkManager `StateChanged` signal and calls
`MakeDBusSignalSubscription` with buffer size 20.  On success the
subscription's channel carries, undecoded, exactly the raw signals the
connection delivers (`conn.Signal(ch)` forwards every received signal). -/
def GetNetworkManagerStateSubscription (env : BusEnv) (received : List DBusSignal) :
    Except String DBusSignalSubscription :=
  match MakeDBusSignalSubscription env with
  | .error e => .error e
  | .ok _ => .ok ⟨received, true⟩

/-! Concrete fixtures used by witness theorems. -/

/-- A device object path used in witness instances. -/
def devPathEx : String := "/org/freedesktop/NetworkManager/Devices/2"

/-- A well-formed matching device state-change signal: activated from
config, reason 0. -/
def goodSig : DBusSignal :=
  ⟨devPathEx, DeviceStateChangedSignal, [DBusValue.u32 100, DBusValue.u32 50, DBusValue.u32 0]⟩

/-- A state-change signal originating from a different device path. -/
def wrongPathSig : DBusSignal :=
  ⟨"/org/freedesktop/NetworkManager/Devices/3", DeviceStateChangedSignal,
    [DBusValue.u32 100, DBusValue.u32 50, DBusValue.u32 0]⟩

/-- A job object path used in witness instances. -/
def jobPathEx : String := "/org/freedesktop/systemd1/job/1501"

/-- A `JobRemoved` signal for a different job path. -/
def otherJobSig : DBusSignal :=
  ⟨"/org/freedesktop/systemd1", dbusJobRemovedSignalName,
    [DBusValue.u32 7, DBusValue.objPath "/org/freedesktop/systemd1/job/8",
      DBusValue.str "other.service", DBusValue.str "done"]⟩

/-- A `JobRemoved` signal for `jobPathEx` with result `"done"`. -/
def matchJobSig : DBusSignal :=
  ⟨"/org/freedesktop/systemd1", dbusJobRemovedSignalName,
    [DBusValue.u32 8, DBusValue.objPath jobPathEx,
      DBusValue.str "demo.service", DBusValue.str "done"]⟩

/-- A `JobRemoved` signal for `jobPathEx` with result `"failed"`. -/
def failJobSig : DBusSignal :=
  ⟨"/org/freedesktop/systemd1", dbusJobRemovedSignalName,
    [DBusValue.u32 8, DBusValue.objPath jobPathEx,
      DBusValue.str "demo.service", DBusValue.str "failed"]⟩

/-! Helper lemmas about the pump. -/

theorem parseDeviceStateChangeSignal_eq_none (devPath : String) (s : DBusSignal)
    (h : s.path ≠ devPath ∨ s.name ≠ DeviceStateChangedSignal ∨ s.body.length < 3 ∨
      asU32 (s.body.getD 0 DBusValue.other) = none ∨
      asU32 (s.body.getD 1 DBusValue.other) = none ∨
      asU32 (s.body.getD 2 DBusValue.other) = none) :
    parseDeviceStateChangeSignal devPath s = none := by
  unfold parseDeviceStateChangeSignal
  split
  · rename_i hc
    obtain ⟨h1, h2, h3⟩ := hc
    split
    · rename_i a b c ha hb hcc
      rcases h with h | h | h | h | h | h
      · exact absurd h1 h
      · exact absurd h2 h
      · omega
      · rw [h] at ha; simp at ha
      · rw [h] at hb; simp at hb
      · rw [h] at hcc; simp at hcc
    · rfl
  · rfl

theorem parseDeviceStateChangeSignal_eq_some (devPath : String) (s : DBusSignal)
    (a b c : Nat) (hp : s.path = devPath) (hn : s.name = DeviceStateChangedSignal)
    (hl : 3 ≤ s.body.length)
    (h0 : s.body.getD 0 DBusValue.other = DBusValue.u32 a)
    (h1 : s.body.getD 1 DBusValue.other = DBusValue.u32 b)
    (h2 : s.body.getD 2 DBusValue.other = DBusValue.u32 c) :
    parseDeviceStateChangeSignal devPath s = some (a, b, c) := by
  unfold parseDeviceStateChangeSignal
  rw [if_pos ⟨hp, hn, hl⟩, h0, h1, h2]
  rfl

theorem goParse_cons_signal_none (devPath : String) (s : DBusSignal)
    (rest : List PumpEvent) (h : parseDeviceStateChangeSignal devPath s = none) :
    goParseDeviceStateChangeSignals devPath (PumpEvent.signal s :: rest)
      = goParseDeviceStateChangeSignals devPath rest := by
  simp [goParseDeviceStateChangeSignals, h]

theorem goParse_cons_signal_some (devPath : String) (s : DBusSignal)
    (rest : List PumpEvent) (r : Nat × Nat × Nat)
    (h : parseDeviceStateChangeSignal devPath s = some r) :
    goParseDeviceStateChangeSignals devPath (PumpEvent.signal s :: rest)
      = ⟨r :: (goParseDeviceStateChangeSignals devPath rest).sent,
          (goParseDeviceStateChangeSignals devPath rest).connClosed,
          (goParseDeviceStateChangeSignals devPath rest).done⟩ := by
  simp [goParseDeviceStateChangeSignals, h]

theorem goParse_append (devPath : String) (pre rest : List PumpEvent)
    (h : PumpEvent.cancelled ∉ pre) :
    goParseDeviceStateChangeSignals devPath (pre ++ rest)
      = ⟨(goParseDeviceStateChangeSignals devPath pre).sent
            ++ (goParseDeviceStateChangeSignals devPath rest).sent,
          (goParseDeviceStateChangeSignals devPath rest).connClosed,
          (goParseDeviceStateChangeSignals devPath rest).done⟩ := by
  induction pre with
  | nil => simp [goParseDeviceStateChangeSignals]
  | cons e t ih =>
    cases e with
    | cancelled => exact absurd (List.mem_cons_self _ _) h
    | signal s =>
      have ht : PumpEvent.cancelled ∉ t := fun hm => h (List.mem_cons_of_mem _ hm)
      cases hp : parseDeviceStateChangeSignal devPath s with
      | none =>
        rw [List.cons_append, goParse_cons_signal_none devPath s _ hp,
          goParse_cons_signal_none devPath s _ hp, ih ht]
      | some r =>
        rw [List.cons_append, goParse_cons_signal_some devPath s _ r hp,
          goParse_cons_signal_some devPath s _ r hp, ih ht]
        simp

/-- Claim C2: for every raw signal received by the device state-change
pump, if the signal's path differs from the subscribed device path, or its
name differs from the Device `StateChanged` signal name, or its body has
fewer than 3 elements, or any of the first three body elements is not a
`uint32`, then no record derived from that signal ever appears on the
output channel and the pump continues exactly as if the signal had never
arrived (no error is reported to the subscriber): the whole pump state is
the same as for the event list with that signal removed. -/
theorem goParseDeviceStateChangeSignals_discards_invalid
    (devPath : String) (s : DBusSignal) (pre post : List PumpEvent)
    (h : s.path ≠ devPath ∨ s.name ≠ DeviceStateChangedSignal ∨ s.body.length < 3 ∨
      asU32 (s.body.getD 0 DBusValue.other) = none ∨
      asU32 (s.body.getD 1 DBusValue.other) = none ∨
      asU32 (s.body.getD 2 DBusValue.other) = none) :
    goParseDeviceStateChangeSignals devPath (pre ++ PumpEvent.signal s :: post)
      = goParseDeviceStateChangeSignals devPath (pre ++ post) := by
  have hn := parseDeviceStateChangeSignal_eq_none devPath s h
  induction pre with
  | nil => simpa using goParse_cons_signal_none devPath s post hn
  | cons e t ih =>
    cases e with
    | cancelled => simp [goParseDeviceStateChangeSignals]
    | signal s2 =>
      cases hp : parseDeviceStateChangeSignal devPath s2 with
      | none =>
        rw [List.cons_append, List.cons_append,
          goParse_cons_signal_none devPath s2 _ hp,
          goParse_cons_signal_none devPath s2 _ hp, ih]
      | some r =>
        rw [List.cons_append, List.cons_append,
          goParse_cons_signal_some devPath s2 _ r hp,
          goParse_cons_signal_some devPath s2 _ r hp, ih]

/-- Witness for C2 at a concrete input: a signal from the wrong device
path is dropped without any other effect on the pump. -/
theorem goParseDeviceStateChangeSignals_discards_invalid_witness :
    goParseDeviceStateChangeSignals devPathEx
        [PumpEvent.signal wrongPathSig, PumpEvent.signal goodSig]
      = goParseDeviceStateChangeSignals devPathEx [PumpEvent.signal goodSig] :=
  goParseDeviceStateChangeSignals_discards_invalid devPathEx wrongPathSig []
    [PumpEvent.signal goodSig] (Or.inl (by decide))

/-- Claim C3: a well-formed matching signal (path and name match, body has
at least 3 elements whose first three are `uint32` values `a`, `b`, `c`)
contributes exactly one decoded record `(a, b, c)` to the output channel,
placed between the records of the earlier and the later events — records
appear in delivery order. -/
theorem goParseDeviceStateChangeSignals_delivers_matching
    (devPath : String) (s : DBusSignal) (pre post : List PumpEvent) (a b c : Nat)
    (hpre : PumpEvent.cancelled ∉ pre)
    (hp : s.path = devPath) (hn : s.name = DeviceStateChangedSignal)
    (hl : 3 ≤ s.body.length)
    (h0 : s.body.getD 0 DBusValue.other = DBusValue.u32 a)
    (h1 : s.body.getD 1 DBusValue.other = DBusValue.u32 b)
    (h2 : s.body.getD 2 DBusValue.other = DBusValue.u32 c) :
    (goParseDeviceStateChangeSignals devPath (pre ++ PumpEvent.signal s :: post)).sent
      = (goParseDeviceStateChangeSignals devPath pre).sent
          ++ (a, b, c) :: (goParseDeviceStateChangeSignals devPath post).sent := by
  have hs := parseDeviceStateChangeSignal_eq_some devPath s a b c hp hn hl h0 h1 h2
  rw [goParse_append devPath pre _ hpre, goParse_cons_signal_some devPath s post _ hs]

/-- Witness for C3 at a concrete input: after a discarded foreign-path
signal, the matching signal yields exactly the record (100, 50, 0). -/
theorem goParseDeviceStateChangeSignals_delivers_matching_witness :
    (goParseDeviceStateChangeSignals devPathEx
        [PumpEvent.signal wrongPathSig, PumpEvent.signal goodSig]).sent
      = (goParseDeviceStateChangeSignals devPathEx [PumpEvent.signal wrongPathSig]).sent
          ++ (100, 50, 0) :: (goParseDeviceStateChangeSignals devPathEx []).sent :=
  goParseDeviceStateChangeSignals_delivers_matching devPathEx goodSig
    [PumpEvent.signal wrongPathSig] [] 100 50 0 (by decide) rfl rfl (by decide) rfl rfl rfl

/-- Claim C7: once the cancellation event is observed, the pump exits at
that select point: the records sent are exactly those produced before the
cancellation (later queued notifications are not drained), the deferred
`conn.Close()` has run, and the deferred `wg.Done()` has run so that
`Join()` returns.  This holds in particular when no notification was ever
received before `Stop()` (take `pre = []`). -/
theorem goParseDeviceStateChangeSignals_stops_on_cancel
    (devPath : String) (pre post : List PumpEvent)
    (hpre : PumpEvent.cancelled ∉ pre) :
    goParseDeviceStateChangeSignals devPath (pre ++ PumpEvent.cancelled :: post)
      = ⟨(goParseDeviceStateChangeSignals devPath pre).sent, true, true⟩ := by
  rw [goParse_append devPath pre _ hpre]
  simp [goParseDeviceStateChangeSignals]

/-- Witness for C7 at a concrete input: cancellation before any
notification stops the pump with nothing sent, the connection closed and
join signalled, without draining the queued matching signal. -/
theorem goParseDeviceStateChangeSignals_stops_on_cancel_witness :
    goParseDeviceStateChangeSignals devPathEx
        [PumpEvent.cancelled, PumpEvent.signal goodSig]
      = ⟨[], true, true⟩ :=
  goParseDeviceStateChangeSignals_stops_on_cancel devPathEx []
    [PumpEvent.signal goodSig] (by decide)

theorem waitJobComplete_cons_signal (targetJobPath : String) (sig : DBusSignal)
    (rest : List WaitEvent) :
    waitJobComplete targetJobPath (WaitEvent.signal sig :: rest)
      = if sig.name = dbusJobRemovedSignalName then
          if sig.body.length < 4 then waitJobComplete targetJobPath rest
          else if sig.body.getD 1 DBusValue.other = DBusValue.objPath targetJobPath then
            (match sig.body.getD 3 DBusValue.other with
              | DBusValue.str r => WaitOutcome.ok r
              | v => WaitOutcome.err ("unexpected jobResult type, got value: " ++ v.render))
          else waitJobComplete targetJobPath rest
        else waitJobComplete targetJobPath rest := rfl

/-- Claim C1: the job waiter only ever reports a result taken from a
`JobRemoved` notification whose embedded job path equals the target token:
(a) whenever `waitJobComplete` returns a result `r`, some received signal
has the `JobRemoved` name, a body of length at least 4, body[1] equal to
the target job path, and body[3] equal to the string `r`; and (b) any
signal whose body[1] differs from the target token is discarded and
waiting continues unchanged. -/
theorem waitJobComplete_correlates (targetJobPath : String)
    (events : List WaitEvent) (r : String) :
    (waitJobComplete targetJobPath events = WaitOutcome.ok r →
      ∃ s, WaitEvent.signal s ∈ events ∧ jobRemovedMatches targetJobPath s ∧
        s.body.getD 3 DBusValue.other = DBusValue.str r)
    ∧ (∀ s rest, s.body.getD 1 DBusValue.other ≠ DBusValue.objPath targetJobPath →
        waitJobComplete targetJobPath (WaitEvent.signal s :: rest)
          = waitJobComplete targetJobPath rest) := by
  constructor
  · induction events with
    | nil => intro h; simp [waitJobComplete] at h
    | cons e t ih =>
      cases e with
      | timeout => intro h; simp [waitJobComplete] at h
      | signal sig =>
        intro h
        rw [waitJobComplete_cons_signal] at h
        by_cases hname : sig.name = dbusJobRemovedSignalName
        · rw [if_pos hname] at h
          by_cases hlen : sig.body.length < 4
          · rw [if_pos hlen] at h
            obtain ⟨s, hs, hm, hr⟩ := ih h
            exact ⟨s, List.mem_cons_of_mem _ hs, hm, hr⟩
          · rw [if_neg hlen] at h
            by_cases hpath : sig.body.getD 1 DBusValue.other
                = DBusValue.objPath targetJobPath
            · rw [if_pos hpath] at h
              cases h3 : sig.body.getD 3 DBusValue.other with
              | str rr =>
                rw [h3] at h
                have h2 : WaitOutcome.ok rr = WaitOutcome.ok r := h
                have hrr : rr = r := by injection h2
                exact ⟨sig, List.mem_cons_self _ _, ⟨hname, by omega, hpath⟩,
                  by rw [h3, hrr]⟩
              | u32 v =>
                rw [h3] at h
                exact absurd h (by simp)
              | objPath p =>
                rw [h3] at h
                exact absurd h (by simp)
              | other =>
                rw [h3] at h
                exact absurd h (by simp)
            · rw [if_neg hpath] at h
              obtain ⟨s, hs, hm, hr⟩ := ih h
              exact ⟨s, List.mem_cons_of_mem _ hs, hm, hr⟩
        · rw [if_neg hname] at h
          obtain ⟨s, hs, hm, hr⟩ := ih h
          exact ⟨s, List.mem_cons_of_mem _ hs, hm, hr⟩
  · intro s rest hpath
    rw [waitJobComplete_cons_signal]
    by_cases hname : s.name = dbusJobRemovedSignalName
    · rw [if_pos hname]
      by_cases hlen : s.body.length < 4
      · rw [if_pos hlen]
      · rw [if_neg hlen, if_neg hpath]
    · rw [if_neg hname]

/-- Witness for C1 at a concrete input: a `JobRemoved` notification for a
different job path is skipped, so the wait proceeds as if it had not
arrived. -/
theorem waitJobComplete_correlates_witness :
    waitJobComplete jobPathEx [WaitEvent.signal otherJobSig, WaitEvent.signal matchJobSig]
      = waitJobComplete jobPathEx [WaitEvent.signal matchJobSig] :=
  (waitJobComplete_correlates jobPathEx
      [WaitEvent.signal otherJobSig, WaitEvent.signal matchJobSig] "done").2
    otherJobSig [WaitEvent.signal matchJobSig] (by decide)

theorem waitJobComplete_timeout (targetJobPath : String) (events : List WaitEvent)
    (hto : WaitEvent.timeout ∈ events)
    (hnm : ∀ s, WaitEvent.signal s ∈ events → ¬ jobRemovedMatches targetJobPath s) :
    waitJobComplete targetJobPath events = WaitOutcome.err "operation timed out" := by
  induction events with
  | nil => simp at hto
  | cons e t ih =>
    cases e with
    | timeout => simp [waitJobComplete]
    | signal sig =>
      have hsig := hnm sig (List.mem_cons_self _ _)
      have hto' : WaitEvent.timeout ∈ t := by
        rcases List.mem_cons.mp hto with h | h
        · exact absurd h (by simp)
        · exact h
      have ht := ih hto' fun s hs => hnm s (List.mem_cons_of_mem _ hs)
      rw [waitJobComplete_cons_signal]
      by_cases hname : sig.name = dbusJobRemovedSignalName
      · rw [if_pos hname]
        by_cases hlen : sig.body.length < 4
        · rw [if_pos hlen]; exact ht
        · have hpath : sig.body.getD 1 DBusValue.other
              ≠ DBusValue.objPath targetJobPath :=
            fun hp => hsig ⟨hname, by omega, hp⟩
          rw [if_neg hlen, if_neg hpath]; exact ht
      · rw [if_neg hname]; exact ht

/-- Claim C5: when no `JobRemoved` notification matching the issued token
arrives before the timer fires, `waitJobComplete` returns the timeout
error, and `StartService`/`StopService` (here entered with the unit not in
the desired state and the mutating call having returned the job path `jp`)
return an error wrapping it, with exactly one mutating call issued — the
request is not re-issued — and no reconcile re-query. -/
theorem waitJobComplete_timeout_behavior (jp : String) (events : List WaitEvent)
    (recheck : Except String String)
    (hto : WaitEvent.timeout ∈ events)
    (hnm : ∀ s, WaitEvent.signal s ∈ events → ¬ jobRemovedMatches jp s) :
    waitJobComplete jp events = WaitOutcome.err "operation timed out"
    ∧ StartService ⟨Except.ok "inactive", Except.ok jp, events, recheck⟩
        = some ⟨some "waiting for start job failed with error: operation timed out", 1, false⟩
    ∧ StopService ⟨Except.ok "active", Except.ok jp, events, recheck⟩
        = some ⟨some "waiting for stop job failed with error: operation timed out", 1, false⟩ := by
  have hw := waitJobComplete_timeout jp events hto hnm
  refine ⟨hw, ?_, ?_⟩
  · simp only [StartService, checkServiceStatus, hw]
    rfl
  · simp only [StopService, checkServiceStatus, hw]
    rfl

/-- Witness for C5 at a concrete input: a foreign-job notification
followed by timer expiry yields the timeout failure with one mutating
call. -/
theorem waitJobComplete_timeout_behavior_witness :
    StartService ⟨Except.ok "inactive", Except.ok jobPathEx,
        [WaitEvent.signal otherJobSig, WaitEvent.timeout], Except.ok "inactive"⟩
      = some ⟨some "waiting for start job failed with error: operation timed out", 1, false⟩ :=
  (waitJobComplete_timeout_behavior jobPathEx
      [WaitEvent.signal otherJobSig, WaitEvent.timeout] (Except.ok "inactive")
      (by decide)
      (by
        intro s hs
        simp only [List.mem_cons, List.not_mem_nil, or_false] at hs
        rcases hs with hs | hs
        · injection hs with hs2
          subst hs2
          decide
        · exact WaitEvent.noConfusion hs)).2.1

/-- Claim C4: the pre-check makes both operations idempotent: when the
status query succeeds and reports the desired end-state already holds
(running for `StartService`, stopped for `StopService`), the call returns
success (`nil` error) with zero mutating `StartUnit`/`StopUnit` calls
issued and no reconcile query. -/
theorem startStopService_idempotent (st : String) (jr : Except String String)
    (events : List WaitEvent) (rc : Except String String) :
    (serviceIsRunning st = true →
      StartService ⟨Except.ok st, jr, events, rc⟩ = some ⟨none, 0, false⟩)
    ∧ (serviceIsRunning st = false →
      StopService ⟨Except.ok st, jr, events, rc⟩ = some ⟨none, 0, false⟩) := by
  constructor
  · intro h
    simp only [StartService, checkServiceStatus, h]
    rfl
  · intro h
    simp only [StopService, checkServiceStatus, h]
    rfl

/-- Witness for C4 at concrete inputs: starting an `"active"` unit and
stopping an `"inactive"` unit both succeed with zero mutating calls. -/
theorem startStopService_idempotent_witness :
    StartService ⟨Except.ok "active", Except.ok jobPathEx, [], Except.ok "active"⟩
        = some ⟨none, 0, false⟩
    ∧ StopService ⟨Except.ok "inactive", Except.ok jobPathEx, [], Except.ok "inactive"⟩
        = some ⟨none, 0, false⟩ :=
  ⟨(startStopService_idempotent "active" (Except.ok jobPathEx) [] (Except.ok "active")).1
      (by decide),
   (startStopService_idempotent "inactive" (Except.ok jobPathEx) [] (Except.ok "inactive")).2
      (by decide)⟩

/-- Claim C6: when the matched job result is not `"done"`, `StartService`
re-queries the status and succeeds exactly when the unit is now running,
otherwise fails with an error naming the job result; `StopService` is
symmetric (success exactly when the unit is now stopped); when the job
result is `"done"` both return success without the reconcile re-query. -/
theorem startStopService_reconcile (jp r : String) (events : List WaitEvent)
    (st2 : String)
    (hw : waitJobComplete jp events = WaitOutcome.ok r) :
    (r ≠ "done" →
      StartService ⟨Except.ok "inactive", Except.ok jp, events, Except.ok st2⟩
        = some ⟨if serviceIsRunning st2 then none
              else some ("job to start service failed (" ++ r ++ ") and unit is not running"),
            1, true⟩
      ∧ StopService ⟨Except.ok "active", Except.ok jp, events, Except.ok st2⟩
        = some ⟨if serviceIsRunning st2
              then some ("job to stop service failed (" ++ r ++ ") and unit is still running")
              else none,
            1, true⟩)
    ∧ (r = "done" →
      StartService ⟨Except.ok "inactive", Except.ok jp, events, Except.ok st2⟩
        = some ⟨none, 1, false⟩
      ∧ StopService ⟨Except.ok "active", Except.ok jp, events, Except.ok st2⟩
        = some ⟨none, 1, false⟩) := by
  constructor
  · intro hne
    have hb : (r == "done") = false := by
      simpa using hne
    constructor
    · simp only [StartService, checkServiceStatus, hw, hb]
      cases hrun : serviceIsRunning st2 <;> simp [hrun] <;> rfl
    · simp only [StopService, checkServiceStatus, hw, hb]
      cases hrun : serviceIsRunning st2 <;> simp [hrun] <;> rfl
  · intro hd
    subst hd
    constructor
    · simp only [StartService, checkServiceStatus, hw]
      rfl
    · simp only [StopService, checkServiceStatus, hw]
      rfl

/-- Witness for C6 at a concrete input: a matched job result `"failed"`
with the unit observed running afterwards makes `StartService` succeed
after reconciling, and with the unit observed still running makes
`StopService` fail naming the job result. -/
theorem startStopService_reconcile_witness :
    StartService ⟨Except.ok "inactive", Except.ok jobPathEx,
        [WaitEvent.signal failJobSig], Except.ok "active"⟩
      = some ⟨if serviceIsRunning "active" then none
            else some ("job to start service failed (" ++ "failed" ++ ") and unit is not running"),
          1, true⟩ :=
  ((startStopService_reconcile jobPathEx "failed" [WaitEvent.signal failJobSig] "active"
      (by decide)).1 (by decide)).1

/-- Claim C10: the pre-check classification used by `StartService` and
`StopService` counts a unit as running exactly when its `ActiveState` is
neither `"inactive"` nor `"failed"`; in particular the `"activating"` and
`"deactivating"` states count as running, so `StartService` on such a unit
returns success immediately with zero mutating calls. -/
theorem checkServiceStatus_classification (st : String) (jr : Except String String)
    (events : List WaitEvent) (rc : Except String String) :
    (serviceIsRunning st = true ↔ (st ≠ "inactive" ∧ st ≠ "failed"))
    ∧ checkServiceStatus (Except.ok st) = Except.ok (serviceIsRunning st)
    ∧ StartService ⟨Except.ok "activating", jr, events, rc⟩ = some ⟨none, 0, false⟩
    ∧ StartService ⟨Except.ok "deactivating", jr, events, rc⟩ = some ⟨none, 0, false⟩ := by
  refine ⟨?_, rfl, rfl, rfl⟩
  simp [serviceIsRunning]

/-- Counterexample to claim C8 as stated: with a working connection but a
match-rule registration rejected by the bus, `DeviceStateChangeSubscribe`
still returns a live subscription, not an error — the source discards the
result of `conn.AddMatchSignal`. -/
theorem deviceStateChangeSubscribe_ignores_addMatch_rejection :
    DeviceStateChangeSubscribe ⟨none, some "match rule rejected by bus"⟩
        "/org/freedesktop/NetworkManager/Devices/2" = Except.ok () := rfl

/-- Claim C8 (amended): `MakeDBusSignalSubscription` (the manager-state
subscription path) returns an error whenever the connection cannot be
established or the match-rule registration is rejected; the device
state-change subscribe returns an error when the connection cannot be
established, but ignores the outcome of match-rule registration and
returns a live subscription whenever the connection succeeds. -/
theorem subscribe_error_propagation (env : BusEnv) (devPath : String) :
    ((env.connectErr ≠ none ∨ env.addMatchErr ≠ none) →
      ∃ e, MakeDBusSignalSubscription env = Except.error e)
    ∧ (∀ ce, env.connectErr = some ce →
      DeviceStateChangeSubscribe env devPath
        = Except.error ("failed to connect to System Bus: " ++ ce))
    ∧ (env.connectErr = none →
      DeviceStateChangeSubscribe env devPath = Except.ok ()) := by
  obtain ⟨ce, ae⟩ := env
  refine ⟨?_, ?_, ?_⟩
  · intro h
    cases ce with
    | some e => exact ⟨"failed to connect to SystemBus: " ++ e, rfl⟩
    | none =>
      cases ae with
      | some e => exact ⟨e, rfl⟩
      | none => rcases h with h | h <;> simp at h
  · intro c hc
    cases hc
    rfl
  · intro h
    cases h
    rfl

/-- Witness for the amended C8 at concrete inputs: a failed connection
makes both subscribe operations fail. -/
theorem subscribe_error_propagation_witness :
    (∃ e, MakeDBusSignalSubscription ⟨some "dial error", none⟩ = Except.error e)
    ∧ DeviceStateChangeSubscribe ⟨some "dial error", none⟩
        "/org/freedesktop/NetworkManager/Devices/2"
      = Except.error ("failed to connect to System Bus: " ++ "dial error") :=
  ⟨(subscribe_error_propagation ⟨some "dial error", none⟩
      "/org/freedesktop/NetworkManager/Devices/2").1 (Or.inl (by simp)),
   (subscribe_error_propagation ⟨some "dial error", none⟩
      "/org/freedesktop/NetworkManager/Devices/2").2.1 "dial error" rfl⟩

/-- Claim C9, evaluated on the code at the failing input: the subscription
returned by `GetNetworkManagerStateSubscription` delivers on its channel
the RAW `StateChanged` signal (a full `DBusSignal` whose body holds
`u32 70`), not a decoded single state code, and the
`DBusSignalSubscription` structure carries only the channel and the
connection — no stop or join operation exists in the source. -/
theorem managerStateSubscription_delivers_raw_signal :
    GetNetworkManagerStateSubscription ⟨none, none⟩
        [⟨"/org/freedesktop/NetworkManager", "org.freedesktop.NetworkManager.StateChanged",
          [DBusValue.u32 70]⟩]
      = Except.ok ⟨[⟨"/org/freedesktop/NetworkManager",
          "org.freedesktop.NetworkManager.StateChanged", [DBusValue.u32 70]⟩], true⟩ := rfl

end GoLinuxToolkit
